import Mathlib

/-! Shallow embedding of `src/backend/main.py` (a quote-of-the-day service with a
cache-aside Redis hash cache and a ZenQuotes upstream provider), together with
theorems settling the specification claims about it.

Modelling conventions:
* Python dicts of string fields (Redis hashes) are association lists `Hash`.
* JSON values (the result of `json.loads`) are the inductive `JVal`.
* An HTTP response from the provider is `HttpResponse`; its `json` field is
  the outcome of `json.loads` on its body (`none` when the body is unparsable).
* Exceptions are modelled with `Except`: `PyError.httpException status detail`
  models FastAPI's `HTTPException`, `PyError.attributeError` models the
  `AttributeError` Python raises when `.get`/`.strip` is called on a value of
  the wrong type.
* The ambient world of one request (cache contents, cache failure injection,
  provider responses, the current UTC instant) is the structure `Env`;
  `get_quote` is a pure function of it that also returns a `Trace` of the
  cache and provider calls it performed, and the cache state after the call.
-/

namespace QOTD

/-- Python `str.strip()`: drop leading and trailing whitespace characters. -/
def pyStrip (s : String) : String :=
  String.mk (((s.data.dropWhile Char.isWhitespace).reverse.dropWhile Char.isWhitespace).reverse)

/-- Python slicing `s[:n]`: the first `n` characters. -/
def pyTake (s : String) (n : Nat) : String :=
  String.mk (s.data.take n)

/-- A JSON value, the result of Python `json.loads`. -/
inductive JVal where
  | jnull : JVal
  | jbool : Bool → JVal
  | jnum : Int → JVal
  | jstr : String → JVal
  | jarr : List JVal → JVal
  | jobj : List (String × JVal) → JVal

/-- Python truthiness of a JSON value: `None`, `False`, `0`, `""`, `[]`, `{}`
are falsy, everything else is truthy. -/
def JVal.truthy : JVal → Bool
  | .jnull => false
  | .jbool b => b
  | .jnum n => n != 0
  | .jstr s => s != ""
  | .jarr xs => !xs.isEmpty
  | .jobj fs => !fs.isEmpty

/-- Field lookup on a JSON object body, Python `dict.get(k)`. -/
def jget (fields : List (String × JVal)) (k : String) : Option JVal :=
  (fields.find? (fun p => p.1 == k)).map (fun p => p.2)

/-- A Redis hash: a flat mapping of string fields to string values.
`redis.hgetall` of an absent key is the empty mapping. -/
abbrev Hash := List (String × String)

/-- Field lookup on a hash, Python `dict.get(k)` (`none` when absent). -/
def hget (h : Hash) (k : String) : Option String :=
  (h.find? (fun p => p.1 == k)).map (fun p => p.2)

/-- Redis `HSET key values=new`: the given fields are written, other fields of
the existing hash are retained. -/
def hsetMerge (old new : Hash) : Hash :=
  new ++ old.filter (fun p => (new.find? (fun q => q.1 == p.1)).isNone)

/-- Python truthiness of `dict.get(k)` on a string-valued dict: truthy exactly
when the field is present with a non-empty value. -/
def strOptTruthy : Option String → Bool
  | none => false
  | some s => s != ""

/-- An exception escaping a handler in the service. -/
inductive PyError where
  | httpException : Nat → String → PyError
  | attributeError : PyError
deriving Repr, DecidableEq

/-- Decidable equality of `Except` results, for evaluating outcomes on
concrete inputs. -/
instance exceptDecEq {ε α : Type} [DecidableEq ε] [DecidableEq α] :
    DecidableEq (Except ε α) := fun a b =>
  match a, b with
  | .error e, .error e' =>
    if h : e = e' then .isTrue (by rw [h]) else .isFalse (by simp [h])
  | .ok v, .ok v' =>
    if h : v = v' then .isTrue (by rw [h]) else .isFalse (by simp [h])
  | .error _, .ok _ => .isFalse (by simp)
  | .ok _, .error _ => .isFalse (by simp)

/-- An HTTP response from the upstream provider. `text` is the raw body
(`await resp.text()`); `json` is the outcome of `json.loads text`
(`none` when the body is not parsable as JSON). -/
structure HttpResponse where
  status : Nat
  text : String
  json : Option JVal

/-- Python `(v or dflt).strip()` where `v` is `item.get(k)` on a JSON object:
a falsy or absent value falls back to `dflt`; stripping a truthy non-string
raises `AttributeError`. -/
def pyStripOrDefault (v : Option JVal) (dflt : String) : Except PyError String :=
  match v with
  | none => .ok (pyStrip dflt)
  | some j =>
    if j.truthy then
      match j with
      | .jstr s => .ok (pyStrip s)
      | _ => .error .attributeError
    else .ok (pyStrip dflt)

/-- The ZenQuotes endpoint selected from `is_today`
(`main.py` line 52: today -> `/today`, other days -> `/random`). -/
def zenURL (is_today : Bool) : String :=
  if is_today then "https://zenquotes.io/api/today" else "https://zenquotes.io/api/random"

/-- The text/author pair produced by a successful provider fetch. -/
structure QuoteFields where
  text : String
  author : String
deriving Repr, DecidableEq

/-- Model of `fetch_zenquotes` (`main.py` lines 50-68) applied to the response
obtained from the selected endpoint: non-200 status, unparsable body and
empty-or-non-list payloads raise `HTTPException 502`; otherwise the first
element's `q`/`a` fields are stripped, the author defaulting to `"Unknown"`. -/
def fetch_zenquotes (resp : HttpResponse) : Except PyError QuoteFields :=
  if resp.status ≠ 200 then
    .error (.httpException 502 ("ZenQuotes " ++ toString resp.status ++ ": " ++ pyTake resp.text 160))
  else
    match resp.json with
    | none => .error (.httpException 502 ("ZenQuotes non-JSON: " ++ pyTake resp.text 160))
    | some data =>
      match data with
      | .jarr (item :: _) =>
        match item with
        | .jobj fields => do
          let t ← pyStripOrDefault (jget fields "q") ""
          let a ← pyStripOrDefault (jget fields "a") "Unknown"
          .ok ⟨t, a⟩
        | _ => .error .attributeError
      | _ => .error (.httpException 502 "Unexpected ZenQuotes payload")

/-- The payload is a non-empty JSON array
(`isinstance(data, list) and data` in `main.py` line 63). -/
def isNonemptyList : JVal → Bool
  | .jarr (_ :: _) => true
  | _ => false

/-- A calendar date as produced by `datetime.fromisoformat` (time components
are never supplied by this service's callers). -/
structure PyDate where
  year : Nat
  month : Nat
  day : Nat
deriving Repr, DecidableEq

/-- Gregorian leap-year rule. -/
def isLeap (y : Nat) : Bool :=
  (y % 4 == 0 && y % 100 != 0) || (y % 400 == 0)

/-- Number of days in a month. -/
def daysInMonth (y m : Nat) : Nat :=
  if m == 2 then (if isLeap y then 29 else 28)
  else if m == 4 || m == 6 || m == 9 || m == 11 then 30
  else 31

/-- Calendar validity as checked by Python's `datetime` constructor. -/
def validDate (y m d : Nat) : Bool :=
  1 ≤ y && y ≤ 9999 && 1 ≤ m && m ≤ 12 && 1 ≤ d && d ≤ daysInMonth y m

/-- The numeric value of a decimal digit character. -/
def digit? (c : Char) : Option Nat :=
  if c.isDigit then some (c.toNat - 48) else none

/-- The spec's notion of a well-formed calendar date key, stated from the
spec's words (§3: external representation `YYYY-MM-DD`) for claim C3: exactly
the ten-character extended form denoting a valid Gregorian calendar date. -/
def specWellFormedDate (s : String) : Bool :=
  match s.toList with
  | [y1, y2, y3, y4, '-', m1, m2, '-', d1, d2] =>
    match digit? y1, digit? y2, digit? y3, digit? y4,
        digit? m1, digit? m2, digit? d1, digit? d2 with
    | some a, some b, some c, some d, some e, some f, some g, some h =>
      validDate (a * 1000 + b * 100 + c * 10 + d) (e * 10 + f) (g * 10 + h)
    | _, _, _, _, _, _, _, _ => false
  | _ => false

/-- Parse exactly `n` ASCII digits from the front of the list (CPython's C
`parse_digits`), accumulating into `acc` and returning value and rest. -/
def parseDigitsGo : List Char → Nat → Nat → Option (Nat × List Char)
  | rest, 0, acc => some (acc, rest)
  | [], _ + 1, _ => none
  | c :: rest, n + 1, acc =>
    if c.isDigit then parseDigitsGo rest n (acc * 10 + (c.toNat - 48)) else none

/-- Parse exactly `n` ASCII digits, returning the value and the rest. -/
def parseDigits (l : List Char) (n : Nat) : Option (Nat × List Char) :=
  parseDigitsGo l n 0

/-- Days in all years before year `y`, proleptic Gregorian
(`datetime._days_before_year`). -/
def daysBeforeYear (y : Nat) : Nat :=
  (y - 1) * 365 + (y - 1) / 4 - (y - 1) / 100 + (y - 1) / 400

/-- Days in year `y` before month `m` (`datetime._days_before_month`). -/
def daysBeforeMonth (y m : Nat) : Nat :=
  ([0, 31, 59, 90, 120, 151, 181, 212, 243, 273, 304, 334].getD (m - 1) 0) +
    (if 2 < m ∧ isLeap y = true then 1 else 0)

/-- Ordinal day number of `(y, m, d)`, day 1 = 0001-01-01
(`datetime._ymd2ord`). -/
def ymd2ord (y m d : Nat) : Nat :=
  daysBeforeYear y + daysBeforeMonth y m + d

/-- Walk the months of year `y` to locate day-of-year `n` (fuel-bounded
helper for `ord2ymd`). -/
def findMonthDay (y : Nat) : Nat → Nat → Nat → Nat × Nat
  | 0, m, n => (m, n)
  | fuel + 1, m, n =>
    if n ≤ daysInMonth y m then (m, n) else findMonthDay y fuel (m + 1) (n - daysInMonth y m)

/-- Convert a day ordinal back to a calendar date (`datetime._ord2ymd`),
specialised to its one caller: the result of an ISO-week conversion always
lies within one year of the ISO year, so the year is found near the hint. -/
def ord2ymd (n yhint : Nat) : PyDate :=
  let y := if n ≤ daysBeforeYear yhint then yhint - 1
           else if n ≤ daysBeforeYear (yhint + 1) then yhint
           else yhint + 1
  let p := findMonthDay y 11 1 (n - daysBeforeYear y)
  ⟨y, p.1, p.2⟩

/-- Ordinal of the Monday starting ISO week 1 of year `y`
(`datetime._isoweek1monday`). -/
def isoweek1monday (y : Nat) : Nat :=
  let firstday := ymd2ord y 1 1
  let firstweekday := (firstday + 6) % 7
  let week1monday := firstday - firstweekday
  if 3 < firstweekday then week1monday + 7 else week1monday

/-- ISO week date to Gregorian (`datetime._isoweek_to_gregorian`): validates
the year range, the week (53 only in long ISO years) and the weekday, then
offsets from the week-1 Monday. -/
def isoweekToGregorian (y w d : Nat) : Option PyDate :=
  if ¬(1 ≤ y ∧ y ≤ 9999) then none
  else if ¬((1 ≤ w ∧ w ≤ 52) ∨
      (w = 53 ∧ (ymd2ord y 1 1 % 7 = 4 ∨ (ymd2ord y 1 1 % 7 = 3 ∧ isLeap y = true)))) then none
  else if ¬(1 ≤ d ∧ d ≤ 7) then none
  else some (ord2ymd (isoweek1monday y + (w - 1) * 7 + (d - 1)) y)

/-- Length of the leading run of ASCII digits. -/
def countLeadingDigits : List Char → Nat
  | [] => 0
  | c :: r => if c.isDigit then countLeadingDigits r + 1 else 0

/-- Model of `datetime._find_isoformat_datetime_separator`: the length of the
date portion, distinguishing `YYYY-MM-DD` (10), `YYYYMMDD` (8), `YYYY-Www`
(8), `YYYYWww` (7), `YYYY-Www-D` (10) and `YYYYWwwD` (8), including the
documented ambiguity rule for `YYYY-Www-##`; `none` models the raised
`ValueError`. The caller guarantees a length of at least 7. -/
def findSeparatorLoc (l : List Char) : Option Nat :=
  if l.length = 7 then some 7
  else if l.getD 4 ' ' = '-' then
    if l.getD 5 ' ' = 'W' then
      if l.length > 8 ∧ l.getD 8 ' ' = '-' then
        if l.length = 9 then none
        else if l.length > 10 ∧ (l.getD 10 ' ').isDigit = true then some 8
        else some 10
      else some 8
    else some 10
  else if l.getD 4 ' ' = 'W' then
    let idx := 7 + countLeadingDigits (l.drop 7)
    if idx < 9 then some idx
    else if idx % 2 = 0 then some 7 else some 8
  else some 8

/-- Model of `_parse_isoformat_date` with the C accelerator's strict
digit parsing: a four-digit year, then either a calendar month/day or a
`W`-prefixed ISO week (and optional weekday), with consistent use of dashes
and full consumption of the date portion. -/
def parseIsoDate (l : List Char) : Option PyDate := do
  let (y, r1) ← parseDigits l 4
  let hasSep := decide (r1.head? = some '-')
  let r2 := if hasSep then r1.tail else r1
  match r2 with
  | 'W' :: r3 => do
    let (w, r4) ← parseDigits r3 2
    match r4 with
    | [] => isoweekToGregorian y w 1
    | c :: r5 =>
      if (decide (c = '-')) ≠ hasSep then none
      else
        match if hasSep then r5 else c :: r5 with
        | [d1] => if d1.isDigit then isoweekToGregorian y w (d1.toNat - 48) else none
        | _ => none
  | _ => do
    let (mo, r3) ← parseDigits r2 2
    if (decide (r3.head? = some '-')) ≠ hasSep then none
    else do
      let (dy, r5) ← parseDigits (if hasSep then r3.tail else r3) 2
      if r5.isEmpty then some ⟨y, mo, dy⟩ else none

/-- Fractional-second component after `.` or `,`: at least one digit, the
first six scaled to microseconds, any further characters must also be digits
(CPython `parse_hh_mm_ss_ff`). -/
def parseFraction (l : List Char) : Option Nat :=
  if l.isEmpty then none
  else do
    let toParse := min 6 l.length
    let (v, rest) ← parseDigits l toParse
    if rest.all (fun c => c.isDigit) then some (v * 10 ^ (6 - toParse)) else none

/-- Model of the C accelerator's `parse_hh_mm_ss_ff`: two-digit `HH`, `MM`,
`SS`, either all separated by `:` or none, the string may stop after any
component, and a fraction after `.` or `,` may follow any component. -/
def parseHMSF (t : List Char) : Option (Nat × Nat × Nat × Nat) := do
  let (h, r1) ← parseDigits t 2
  match r1 with
  | [] => some (h, 0, 0, 0)
  | c1 :: r1tail =>
    if c1 = '.' ∨ c1 = ',' then do
      let f ← parseFraction r1tail
      some (h, 0, 0, f)
    else
      let hasSep := decide (c1 = ':')
      do
      let (m, r2) ← parseDigits (if hasSep then r1tail else r1) 2
      match r2 with
      | [] => some (h, m, 0, 0)
      | c2 :: r2tail =>
        if c2 = '.' ∨ c2 = ',' then do
          let f ← parseFraction r2tail
          some (h, m, 0, f)
        else if hasSep = true ∧ ¬(c2 = ':') then none
        else do
          let (sec, r3) ← parseDigits (if hasSep then r2tail else r2) 2
          match r3 with
          | [] => some (h, m, sec, 0)
          | c3 :: r3tail =>
            if c3 = '.' ∨ c3 = ',' then do
              let f ← parseFraction r3tail
              some (h, m, sec, f)
            else none

/-- Index of the first timezone-introducing character (`+`, `-` or `Z`) in a
time string, or its length (the C scanner takes the leftmost). -/
def firstTzIndex : List Char → Nat
  | [] => 0
  | c :: r => if c = '+' ∨ c = '-' ∨ c = 'Z' then 0 else firstTzIndex r + 1

/-- Model of `_parse_isoformat_time` as the C accelerator behaves: split at
the first `+`/`-`/`Z`, parse and range-check the clock part, then accept
either a final `Z` or a numeric offset of total magnitude strictly below 24
hours. -/
def parseIsoTime (t : List Char) : Bool :=
  if t.length < 2 then false
  else
    let i := firstTzIndex t
    match parseHMSF (t.take i) with
    | none => false
    | some (h, m, s, _) =>
      if ¬(h ≤ 23 ∧ m ≤ 59 ∧ s ≤ 59) then false
      else if i = t.length then true
      else if t.getD i ' ' = 'Z' then decide (i + 1 = t.length)
      else
        match parseHMSF (t.drop (i + 1)) with
        | none => false
        | some (th, tm, ts, tf) =>
          decide ((th * 3600 + tm * 60 + ts) * 1000000 + tf < 86400000000)

/-- Model of `datetime.fromisoformat` (the parser behind `format_date_or_400`,
CPython 3.11 C accelerator), returning the calendar-date component
(`dt.date()`) — the only part `get_quote` consumes; `none` models the raised
`ValueError`. A date in calendar or ISO-week, extended or basic form, is
optionally followed by exactly one arbitrary separator character and a
time-of-day. -/
def fromisoformat (s : String) : Option PyDate :=
  let l := s.toList
  if l.length < 7 then none
  else
    match findSeparatorLoc l with
    | none => none
    | some sep =>
      match parseIsoDate (l.take sep) with
      | none => none
      | some d =>
        if ¬(validDate d.year d.month d.day = true) then none
        else if l.length ≤ sep then some d
        else if parseIsoTime (l.drop (sep + 1)) then some d
        else none

/-- Storage-key derivation (`main.py` lines 38-39). -/
def rkey (date_str : String) : String := "quote:" ++ date_str

/-- The JSON body returned by `get_quote`
(`{ date, text, author, source, stored_at }`; `stored_at` is `None` on a hit
whose cached hash lacks the field). -/
structure Payload where
  date : String
  text : String
  author : String
  source : String
  stored_at : Option String
deriving Repr, DecidableEq

/-- The externally observable calls one request performed: keys read with
`HGETALL`, key/fields pairs attempted with `HSET` (attempted even when the
write raises), and provider URLs requested. -/
structure Trace where
  cacheGets : List String := []
  cacheSets : List (String × Hash) := []
  providerCalls : List String := []
deriving Repr, DecidableEq

/-- The ambient world of one `get_quote` request: cache contents per key
(`hgetall` of an absent key is `[]`), failure injection for the Redis read and
write, the provider's response for each endpoint choice, and the current UTC
instant (as a calendar date and as the ISO-8601 string `to_iso_now` returns). -/
structure Env where
  cache : String → Hash
  getFails : Bool
  setFails : Bool
  provider : Bool → HttpResponse
  nowDate : PyDate
  nowISO : String

/-- The outcome of one request: the response or escaped exception, the trace
of external calls, and the cache contents afterwards. -/
structure Outcome where
  result : Except PyError Payload
  trace : Trace
  cache' : String → Hash

/-- The cache-hit probe (`main.py` lines 95-104): when the Redis read does not
raise and the stored hash has truthy `text` and `author` fields, the response
payload built from the cached fields. -/
def cacheHit? (env : Env) (date : String) : Option Payload :=
  if env.getFails then none
  else
    let cached := env.cache (rkey date)
    if !cached.isEmpty && strOptTruthy (hget cached "text")
        && strOptTruthy (hget cached "author") then
      some { date := date,
             text := (hget cached "text").getD "",
             author := (hget cached "author").getD "",
             source := (hget cached "source").getD "zenquotes",
             stored_at := hget cached "stored_at" }
    else none

/-- The miss path (`main.py` lines 109-134): compute `is_today`, fetch from
the provider, build the payload, best-effort `HSET`, return the payload. -/
def missOutcome (env : Env) (date : String) (dt : PyDate) : Outcome :=
  let key := rkey date
  let is_today := decide (dt = env.nowDate)
  let t1 : Trace := { cacheGets := [key], providerCalls := [zenURL is_today] }
  match fetch_zenquotes (env.provider is_today) with
  | .error e => { result := .error e, trace := t1, cache' := env.cache }
  | .ok q =>
    let payload : Payload :=
      { date := date, text := q.text, author := q.author,
        source := "zenquotes", stored_at := some env.nowISO }
    let fields : Hash :=
      [("text", q.text), ("author", q.author),
       ("source", "zenquotes"), ("stored_at", env.nowISO)]
    let t2 : Trace := { t1 with cacheSets := [(key, fields)] }
    if env.setFails then
      { result := .ok payload, trace := t2, cache' := env.cache }
    else
      { result := .ok payload, trace := t2,
        cache' := fun k => if k = key then hsetMerge (env.cache k) fields else env.cache k }

/-- The body of `get_quote` after a successful date parse. -/
def resolveValid (env : Env) (date : String) (dt : PyDate) : Outcome :=
  match cacheHit? env date with
  | some p => { result := .ok p, trace := { cacheGets := [rkey date] }, cache' := env.cache }
  | none => missOutcome env date dt

/-- Model of the `/quote` handler `get_quote` (`main.py` lines 82-134):
parse the date (400 on failure, before any external call), try the cache,
and on a miss fetch from the provider and write through. -/
def get_quote (env : Env) (date : String) : Outcome :=
  match fromisoformat date with
  | none =>
    { result := .error (.httpException 400 "Invalid date format, use YYYY-MM-DD"),
      trace := {}, cache' := env.cache }
  | some dt => resolveValid env date dt

/-- The ambient world of one `/health` request: cache contents, an optional
raised message for the probe write and the probe read, and the current ISO
timestamp. -/
structure HealthEnv where
  cache : String → Hash
  setFails : Option String
  getFails : Option String
  nowISO : String

/-- An HTTP response of the `/health` handler: `ok b` is status 200 with body
`{"ok": b}`; `err msg` is status 500 with body `{"ok": false, "error": msg}`. -/
inductive HealthResp where
  | ok : Bool → HealthResp
  | err : String → HealthResp
deriving Repr, DecidableEq

/-- Model of the `/health` handler (`main.py` lines 71-79): `HSET` the probe
key, `HGETALL` it back, report whether the read observed `ok = "1"`; any
raised exception yields the 500 body. -/
def health (env : HealthEnv) : HealthResp :=
  match env.setFails with
  | some msg => .err msg
  | none =>
    let cache1 : String → Hash := fun k =>
      if k = "qotd:health" then hsetMerge (env.cache k) [("ok", "1"), ("ts", env.nowISO)]
      else env.cache k
    match env.getFails with
    | some msg => .err msg
    | none =>
      let probe := cache1 "qotd:health"
      .ok (hget probe "ok" == some "1")


def respC1 : HttpResponse := { status := 500, text := "boom", json := none }

def envC1 : Env :=
  { cache := fun k => if k = "quote:2024-01-01" then [("text", "Be kind."), ("author", "Anon")] else [],
    getFails := false, setFails := false,
    provider := fun _ => respC1, nowDate := ⟨2024, 5, 5⟩, nowISO := "2024-05-05T12:00:00+00:00" }

def respC2 : HttpResponse :=
  { status := 200, text := "ok",
    json := some (.jarr [.jobj [("q", .jstr "Carpe diem"), ("a", .jstr "Horace")]]) }

def envC2 : Env :=
  { cache := fun _ => [], getFails := true, setFails := true,
    provider := fun _ => respC2, nowDate := ⟨2024, 5, 5⟩, nowISO := "2024-05-05T12:00:00+00:00" }

def respC4 : HttpResponse :=
  { status := 200, text := "ok",
    json := some (.jarr [.jobj [("q", .jstr "  Carpe diem "), ("a", .jstr "")]]) }

def envC4 : Env :=
  { cache := fun _ => [], getFails := false, setFails := false,
    provider := fun _ => respC4, nowDate := ⟨2024, 5, 5⟩, nowISO := "2024-05-05T12:00:00+00:00" }

def envC6 : Env :=
  { cache := fun _ => [], getFails := false, setFails := false,
    provider := fun _ => { status := 500, text := "Internal Server Error", json := none },
    nowDate := ⟨2024, 5, 5⟩, nowISO := "2024-05-05T12:00:00+00:00" }

def envC8 : Env :=
  { cache := fun k => if k = "quote:2024-01-01" then [("text", "Be kind."), ("author", "Anon")] else [],
    getFails := false, setFails := false,
    provider := fun _ => { status := 200, text := "unused", json := none },
    nowDate := ⟨2024, 5, 5⟩, nowISO := "2024-05-05T12:00:00+00:00" }

def envC9 : HealthEnv :=
  { cache := fun _ => [], setFails := none, getFails := none, nowISO := "2024-05-05T12:00:00+00:00" }

def envC9b : HealthEnv :=
  { cache := fun _ => [], setFails := some "connection refused", getFails := none,
    nowISO := "2024-05-05T12:00:00+00:00" }

def envC10 : Env :=
  { cache := fun _ => [], getFails := false, setFails := false,
    provider := fun _ =>
      { status := 200, text := "ok",
        json := some (.jarr [.jobj [("q", .jstr "Carpe diem"), ("a", .jstr "Horace")]]) },
    nowDate := ⟨2024, 5, 5⟩, nowISO := "2024-05-05T12:00:00+00:00" }

def envC3 : Env :=
  { cache := fun _ => [], getFails := false, setFails := false,
    provider := fun _ => { status := 200, text := "unused", json := none },
    nowDate := ⟨2024, 5, 5⟩, nowISO := "2024-05-05T12:00:00+00:00" }

def envC3x : Env :=
  { cache := fun _ => [], getFails := false, setFails := false,
    provider := fun _ =>
      { status := 200, text := "ok",
        json := some (.jarr [.jobj [("q", .jstr "Carpe diem"), ("a", .jstr "Horace")]]) },
    nowDate := ⟨2024, 5, 5⟩, nowISO := "2024-05-05T12:00:00+00:00" }

def envC5 : Env :=
  { cache := fun _ => [], getFails := false, setFails := false,
    provider := fun _ =>
      { status := 200, text := "ok",
        json := some (.jarr [.jobj [("q", .jstr "Carpe diem"), ("a", .jstr "Horace")]]) },
    nowDate := ⟨2024, 5, 5⟩, nowISO := "2024-05-05T12:00:00+00:00" }

def envC7 : Env :=
  { cache := fun _ => [], getFails := false, setFails := false,
    provider := fun _ => { status := 500, text := "boom", json := none },
    nowDate := ⟨2024, 5, 5⟩, nowISO := "2024-05-05T12:00:00+00:00" }

lemma get_quote_parse_none (env : Env) (date : String) (h : fromisoformat date = none) :
    get_quote env date =
      { result := .error (.httpException 400 "Invalid date format, use YYYY-MM-DD"),
        trace := {}, cache' := env.cache } := by
  simp [get_quote, h]

lemma get_quote_parse_some (env : Env) (date : String) (dt : PyDate)
    (h : fromisoformat date = some dt) :
    get_quote env date = resolveValid env date dt := by
  simp [get_quote, h]

lemma resolveValid_hit (env : Env) (date : String) (dt : PyDate) (p : Payload)
    (h : cacheHit? env date = some p) :
    resolveValid env date dt =
      { result := .ok p, trace := { cacheGets := [rkey date] }, cache' := env.cache } := by
  simp [resolveValid, h]

lemma resolveValid_miss (env : Env) (date : String) (dt : PyDate)
    (h : cacheHit? env date = none) :
    resolveValid env date dt = missOutcome env date dt := by
  simp [resolveValid, h]

lemma cacheHit_some (env : Env) (date : String)
    (hgf : env.getFails = false)
    (ht : strOptTruthy (hget (env.cache (rkey date)) "text") = true)
    (ha : strOptTruthy (hget (env.cache (rkey date)) "author") = true) :
    cacheHit? env date =
      some { date := date,
             text := (hget (env.cache (rkey date)) "text").getD "",
             author := (hget (env.cache (rkey date)) "author").getD "",
             source := (hget (env.cache (rkey date)) "source").getD "zenquotes",
             stored_at := hget (env.cache (rkey date)) "stored_at" } := by
  have hne : (env.cache (rkey date)).isEmpty = false := by
    cases hc : env.cache (rkey date) with
    | nil => rw [hc] at ht; simp [hget, strOptTruthy] at ht
    | cons a l => simp
  simp [cacheHit?, hgf, hne, ht, ha]

lemma cacheHit_none_invalid (env : Env) (date : String)
    (h : strOptTruthy (hget (env.cache (rkey date)) "text") = false ∨
         strOptTruthy (hget (env.cache (rkey date)) "author") = false) :
    cacheHit? env date = none := by
  cases hgf : env.getFails with
  | true => simp [cacheHit?, hgf]
  | false => rcases h with h | h <;> simp [cacheHit?, hgf, h]

lemma missOutcome_providerCalls (env : Env) (date : String) (dt : PyDate) :
    (missOutcome env date dt).trace.providerCalls = [zenURL (decide (dt = env.nowDate))] := by
  cases hf : fetch_zenquotes (env.provider (decide (dt = env.nowDate))) with
  | error e => simp [missOutcome, hf]
  | ok q => cases hs : env.setFails <;> simp [missOutcome, hf, hs]

lemma missOutcome_result_ok (env : Env) (date : String) (dt : PyDate) (q : QuoteFields)
    (hf : fetch_zenquotes (env.provider (decide (dt = env.nowDate))) = .ok q) :
    (missOutcome env date dt).result =
      .ok { date := date, text := q.text, author := q.author,
            source := "zenquotes", stored_at := some env.nowISO } := by
  cases hs : env.setFails <;> simp [missOutcome, hf, hs]

lemma missOutcome_result_error (env : Env) (date : String) (dt : PyDate) (e : PyError)
    (hf : fetch_zenquotes (env.provider (decide (dt = env.nowDate))) = .error e) :
    (missOutcome env date dt).result = .error e := by
  simp [missOutcome, hf]


/-- Claim C1: for a well-formed date whose cache read succeeds, `get_quote`
serves from the cache exactly when the cached `text` and `author` fields are
both non-empty — returning the record built from the cached fields (source
falling back to `"zenquotes"`, `stored_at` taken from the cache if present)
with no provider call and no cache write — and otherwise (text or author
empty or missing) performs a fresh provider fetch. -/
theorem C1_cache_hit_iff (env : Env) (date : String) (dt : PyDate)
    (hparse : fromisoformat date = some dt) (hgf : env.getFails = false) :
    (strOptTruthy (hget (env.cache (rkey date)) "text") = true →
      strOptTruthy (hget (env.cache (rkey date)) "author") = true →
      get_quote env date =
        { result := .ok
            { date := date,
              text := (hget (env.cache (rkey date)) "text").getD "",
              author := (hget (env.cache (rkey date)) "author").getD "",
              source := (hget (env.cache (rkey date)) "source").getD "zenquotes",
              stored_at := hget (env.cache (rkey date)) "stored_at" },
          trace := { cacheGets := [rkey date], cacheSets := [], providerCalls := [] },
          cache' := env.cache }) ∧
    ((strOptTruthy (hget (env.cache (rkey date)) "text") = false ∨
      strOptTruthy (hget (env.cache (rkey date)) "author") = false) →
      (get_quote env date).trace.providerCalls = [zenURL (decide (dt = env.nowDate))]) := by
  constructor
  · intro ht ha
    rw [get_quote_parse_some env date dt hparse,
      resolveValid_hit env date dt _ (cacheHit_some env date hgf ht ha)]
  · intro h
    rw [get_quote_parse_some env date dt hparse,
      resolveValid_miss env date dt (cacheHit_none_invalid env date h)]
    exact missOutcome_providerCalls env date dt

/-- Witness for C1 at a concrete populated cache: the hit payload is served. -/
theorem C1_witness :
    get_quote envC1 "2024-01-01" =
      { result := .ok
          { date := "2024-01-01", text := "Be kind.", author := "Anon",
            source := "zenquotes", stored_at := none },
        trace := { cacheGets := ["quote:2024-01-01"], cacheSets := [], providerCalls := [] },
        cache' := envC1.cache } :=
  (C1_cache_hit_iff envC1 "2024-01-01" ⟨2024, 1, 1⟩ (by decide) rfl).1 (by decide) (by decide)


lemma result_ignores_setFails (env : Env) (date : String) (b : Bool) :
    (get_quote { env with setFails := b } date).result = (get_quote env date).result := by
  cases hp : fromisoformat date with
  | none => simp [get_quote, hp]
  | some dt =>
    rw [get_quote_parse_some { env with setFails := b } date dt hp,
      get_quote_parse_some env date dt hp]
    have hc : cacheHit? { env with setFails := b } date = cacheHit? env date := rfl
    cases hh : cacheHit? env date with
    | some p =>
      rw [resolveValid_hit { env with setFails := b } date dt p (hc.trans hh),
        resolveValid_hit env date dt p hh]
    | none =>
      rw [resolveValid_miss { env with setFails := b } date dt (hc.trans hh),
        resolveValid_miss env date dt hh]
      cases hf : fetch_zenquotes (env.provider (decide (dt = env.nowDate))) with
      | error e =>
        rw [missOutcome_result_error env date dt e hf,
          missOutcome_result_error { env with setFails := b } date dt e hf]
      | ok q =>
        rw [missOutcome_result_ok env date dt q hf,
          missOutcome_result_ok { env with setFails := b } date dt q hf]

/-- Claim C2: for a well-formed date with both the cache read and the cache
write raising, the provider is still called and its record returned; moreover
the result of `get_quote` never depends on whether the cache write succeeds. -/
theorem C2_cache_failures_tolerated (env : Env) (date : String) (dt : PyDate) (q : QuoteFields)
    (hparse : fromisoformat date = some dt)
    (hg : env.getFails = true) (hs : env.setFails = true)
    (hfetch : fetch_zenquotes (env.provider (decide (dt = env.nowDate))) = .ok q) :
    (get_quote env date).result =
      .ok { date := date, text := q.text, author := q.author,
            source := "zenquotes", stored_at := some env.nowISO } ∧
    (get_quote env date).trace.providerCalls = [zenURL (decide (dt = env.nowDate))] ∧
    ∀ b, (get_quote { env with setFails := b } date).result = (get_quote env date).result := by
  have hmiss : cacheHit? env date = none := by simp [cacheHit?, hg]
  refine ⟨?_, ?_, fun b => result_ignores_setFails env date b⟩
  · rw [get_quote_parse_some env date dt hparse, resolveValid_miss env date dt hmiss]
    exact missOutcome_result_ok env date dt q hfetch
  · rw [get_quote_parse_some env date dt hparse, resolveValid_miss env date dt hmiss]
    exact missOutcome_providerCalls env date dt

/-- Witness for C2: with an always-failing cache, the provider record is
still returned. -/
theorem C2_witness :
    (get_quote envC2 "2024-01-01").result =
      .ok { date := "2024-01-01", text := "Carpe diem", author := "Horace",
            source := "zenquotes", stored_at := some "2024-05-05T12:00:00+00:00" } :=
  (C2_cache_failures_tolerated envC2 "2024-01-01" ⟨2024, 1, 1⟩ ⟨"Carpe diem", "Horace"⟩
    (by decide) rfl rfl (by decide)).1

/-- Counterexample to claim C3 as stated: `"2024-01-01T12:00:00"` is not a
well-formed calendar date in the spec's `YYYY-MM-DD` representation, yet
`get_quote` does not fail with the 400 invalid-date error — the program's
`datetime.fromisoformat` parses it, the cache is read, the provider is
called, and a record is returned. -/
theorem C3_counterexample :
    specWellFormedDate "2024-01-01T12:00:00" = false ∧
    fromisoformat "2024-01-01T12:00:00" = some ⟨2024, 1, 1⟩ ∧
    (get_quote envC3x "2024-01-01T12:00:00").result =
      .ok { date := "2024-01-01T12:00:00", text := "Carpe diem", author := "Horace",
            source := "zenquotes", stored_at := some "2024-05-05T12:00:00+00:00" } ∧
    (get_quote envC3x "2024-01-01T12:00:00").trace.cacheGets =
      ["quote:2024-01-01T12:00:00"] ∧
    (get_quote envC3x "2024-01-01T12:00:00").trace.providerCalls =
      ["https://zenquotes.io/api/random"] := by
  refine ⟨by decide, by decide, by decide, by decide, by decide⟩

/-- Claim C3, amended: for every date string that the program's
`datetime.fromisoformat` parse rejects (e.g. `"not-a-date"`, `""`),
`get_quote` fails with the 400 invalid-date error and performs no cache call
and no provider call. (The parser also accepts ISO-8601 datetime strings
beyond plain `YYYY-MM-DD` calendar dates; those are served normally, as the
counterexample shows.) -/
theorem C3_invalid_date (env : Env) (date : String) (hparse : fromisoformat date = none) :
    get_quote env date =
      { result := .error (.httpException 400 "Invalid date format, use YYYY-MM-DD"),
        trace := { cacheGets := [], cacheSets := [], providerCalls := [] },
        cache' := env.cache } :=
  get_quote_parse_none env date hparse

/-- Witness for C3 at the two malformed inputs named by the spec. -/
theorem C3_witness :
    (get_quote envC3 "not-a-date").result =
        .error (.httpException 400 "Invalid date format, use YYYY-MM-DD") ∧
    (get_quote envC3 "").trace = { cacheGets := [], cacheSets := [], providerCalls := [] } :=
  ⟨congrArg Outcome.result (C3_invalid_date envC3 "not-a-date" (by decide)),
   congrArg Outcome.trace (C3_invalid_date envC3 "" (by decide))⟩


lemma pyStripOrDefault_str (qField : Option String) (dflt : String) :
    pyStripOrDefault (qField.map JVal.jstr) dflt =
      .ok (if qField.getD "" = "" then pyStrip dflt else pyStrip (qField.getD "")) := by
  cases qField with
  | none => simp [pyStripOrDefault]
  | some s =>
    by_cases h0 : s = ""
    · subst h0; simp [pyStripOrDefault, JVal.truthy]
    · simp [pyStripOrDefault, JVal.truthy, h0]

lemma fetch_ok_of_fields (resp : HttpResponse) (fields : List (String × JVal))
    (rest : List JVal) (qField aField : Option String)
    (hstatus : resp.status = 200)
    (hjson : resp.json = some (.jarr (.jobj fields :: rest)))
    (hq : jget fields "q" = qField.map JVal.jstr)
    (ha : jget fields "a" = aField.map JVal.jstr) :
    fetch_zenquotes resp =
      .ok { text := pyStrip (qField.getD ""),
            author := if aField.getD "" = "" then "Unknown"
                      else pyStrip (aField.getD "") } := by
  have hT := pyStripOrDefault_str qField ""
  have hA := pyStripOrDefault_str aField "Unknown"
  rw [← hq] at hT
  rw [← ha] at hA
  simp only [fetch_zenquotes, hstatus, hjson, hT, hA]
  have hps : pyStrip "" = "" := rfl
  have hpu : pyStrip "Unknown" = "Unknown" := rfl
  by_cases h1 : qField.getD "" = "" <;> by_cases h2 : aField.getD "" = "" <;>
    simp [h1, h2, hps, hpu] <;> rfl


/-- Claim C4: on a cache miss, the returned record echoes the request date,
carries the provider's `q`/`a` fields with surrounding whitespace stripped
(author defaulting to `"Unknown"` when the provider's author field is empty
or missing), source `"zenquotes"`, and the current UTC ISO-8601 timestamp. -/
theorem C4_miss_record_shape (env : Env) (date : String) (dt : PyDate)
    (hparse : fromisoformat date = some dt)
    (hmiss : cacheHit? env date = none)
    (fields : List (String × JVal)) (rest : List JVal)
    (qField aField : Option String)
    (hstatus : (env.provider (decide (dt = env.nowDate))).status = 200)
    (hjson : (env.provider (decide (dt = env.nowDate))).json =
      some (.jarr (.jobj fields :: rest)))
    (hq : jget fields "q" = qField.map JVal.jstr)
    (ha : jget fields "a" = aField.map JVal.jstr) :
    (get_quote env date).result =
      .ok { date := date,
            text := pyStrip (qField.getD ""),
            author := if aField.getD "" = "" then "Unknown" else pyStrip (aField.getD ""),
            source := "zenquotes",
            stored_at := some env.nowISO } := by
  rw [get_quote_parse_some env date dt hparse, resolveValid_miss env date dt hmiss]
  exact missOutcome_result_ok env date dt _
    (fetch_ok_of_fields _ fields rest qField aField hstatus hjson hq ha)

/-- Witness for C4: whitespace around the quote is stripped and an empty
author field falls back to `"Unknown"`. -/
theorem C4_witness :
    (get_quote envC4 "2024-01-01").result =
      .ok { date := "2024-01-01", text := "Carpe diem", author := "Unknown",
            source := "zenquotes", stored_at := some "2024-05-05T12:00:00+00:00" } :=
  C4_miss_record_shape envC4 "2024-01-01" ⟨2024, 1, 1⟩ (by decide) (by decide)
    [("q", .jstr "  Carpe diem "), ("a", .jstr "")] [] (some "  Carpe diem ") (some "")
    (by decide) rfl rfl rfl

/-- Claim C5: on a cache miss the provider endpoint is selected by comparing
the parsed date with the current UTC calendar date: the today endpoint for
the current date, the random endpoint for every other date. -/
theorem C5_endpoint_selection (env : Env) (date : String) (dt : PyDate)
    (hparse : fromisoformat date = some dt)
    (hmiss : cacheHit? env date = none) :
    (get_quote env date).trace.providerCalls =
      [if dt = env.nowDate then "https://zenquotes.io/api/today"
       else "https://zenquotes.io/api/random"] := by
  rw [get_quote_parse_some env date dt hparse, resolveValid_miss env date dt hmiss,
    missOutcome_providerCalls env date dt]
  by_cases h : dt = env.nowDate <;> simp [zenURL, h]

/-- Witness for C5: the current UTC date routes to the today endpoint and a
different date routes to the random endpoint. -/
theorem C5_witness :
    (get_quote envC5 "2024-05-05").trace.providerCalls = ["https://zenquotes.io/api/today"] ∧
    (get_quote envC5 "2024-01-01").trace.providerCalls = ["https://zenquotes.io/api/random"] :=
  ⟨C5_endpoint_selection envC5 "2024-05-05" ⟨2024, 5, 5⟩ (by decide) (by decide),
   C5_endpoint_selection envC5 "2024-01-01" ⟨2024, 1, 1⟩ (by decide) (by decide)⟩


lemma pyStripOrDefault_not_http (v : Option JVal) (dflt : String) (c : Nat) (m : String) :
    pyStripOrDefault v dflt ≠ .error (.httpException c m) := by
  cases v with
  | none => simp [pyStripOrDefault]
  | some j =>
    by_cases ht : j.truthy = true
    · cases j <;> simp [pyStripOrDefault, ht]
    · simp [pyStripOrDefault, ht]

lemma fetch_status_ne (resp : HttpResponse) (hs : resp.status ≠ 200) :
    fetch_zenquotes resp =
      .error (.httpException 502
        ("ZenQuotes " ++ toString resp.status ++ ": " ++ pyTake resp.text 160)) := by
  unfold fetch_zenquotes
  rw [if_pos hs]

lemma fetch_json_none (resp : HttpResponse) (hs : resp.status = 200)
    (hj : resp.json = none) :
    fetch_zenquotes resp =
      .error (.httpException 502 ("ZenQuotes non-JSON: " ++ pyTake resp.text 160)) := by
  unfold fetch_zenquotes
  rw [hs, hj, if_neg (by decide)]

lemma fetch_flat (resp : HttpResponse) (j : JVal) (hs : resp.status = 200)
    (hj : resp.json = some j) (hflat : isNonemptyList j = false) :
    fetch_zenquotes resp = .error (.httpException 502 "Unexpected ZenQuotes payload") := by
  unfold fetch_zenquotes
  rw [hs, hj, if_neg (by decide)]
  cases j with
  | jarr xs =>
    cases xs with
    | nil => rfl
    | cons a l => simp [isNonemptyList] at hflat
  | jnull => rfl
  | jbool b => rfl
  | jnum n => rfl
  | jstr s => rfl
  | jobj fs => rfl

lemma fetch_jobj (resp : HttpResponse) (hs : resp.status = 200)
    (fields : List (String × JVal)) (rest : List JVal)
    (hj : resp.json = some (.jarr (.jobj fields :: rest))) :
    fetch_zenquotes resp =
      (do
        let t ← pyStripOrDefault (jget fields "q") ""
        let a ← pyStripOrDefault (jget fields "a") "Unknown"
        Except.ok ⟨t, a⟩) := by
  unfold fetch_zenquotes
  rw [hs, hj, if_neg (by decide)]

lemma fetch_no502_of_nonempty (resp : HttpResponse) (hs : resp.status = 200)
    (item : JVal) (rest : List JVal) (hj : resp.json = some (.jarr (item :: rest)))
    (d : String) :
    fetch_zenquotes resp ≠ .error (.httpException 502 d) := by
  cases item with
  | jobj fields =>
    rw [fetch_jobj resp hs fields rest hj]
    cases hT : pyStripOrDefault (jget fields "q") "" with
    | error e =>
      simp only [bind, Except.bind, hT]
      intro h
      injection h with h
      rw [h] at hT
      exact pyStripOrDefault_not_http _ _ _ _ hT
    | ok t =>
      cases hA : pyStripOrDefault (jget fields "a") "Unknown" with
      | error e =>
        simp only [bind, Except.bind, hT, hA]
        intro h
        injection h with h
        rw [h] at hA
        exact pyStripOrDefault_not_http _ _ _ _ hA
      | ok a => simp [bind, Except.bind, hT, hA]
  | jnull =>
    have hx : fetch_zenquotes resp = .error .attributeError := by
      unfold fetch_zenquotes
      rw [hs, hj, if_neg (by decide)]
    rw [hx]
    simp
  | jbool b =>
    have hx : fetch_zenquotes resp = .error .attributeError := by
      unfold fetch_zenquotes
      rw [hs, hj, if_neg (by decide)]
    rw [hx]
    simp
  | jnum n =>
    have hx : fetch_zenquotes resp = .error .attributeError := by
      unfold fetch_zenquotes
      rw [hs, hj, if_neg (by decide)]
    rw [hx]
    simp
  | jstr s =>
    have hx : fetch_zenquotes resp = .error .attributeError := by
      unfold fetch_zenquotes
      rw [hs, hj, if_neg (by decide)]
    rw [hx]
    simp
  | jarr ys =>
    have hx : fetch_zenquotes resp = .error .attributeError := by
      unfold fetch_zenquotes
      rw [hs, hj, if_neg (by decide)]
    rw [hx]
    simp

lemma fetch_502_iff (resp : HttpResponse) :
    (∃ d, fetch_zenquotes resp = .error (.httpException 502 d)) ↔
      (resp.status ≠ 200 ∨ resp.json = none ∨
        ∃ j, resp.json = some j ∧ isNonemptyList j = false) := by
  constructor
  · rintro ⟨d, hd⟩
    by_cases hs : resp.status = 200
    · cases hj : resp.json with
      | none => exact Or.inr (Or.inl rfl)
      | some j =>
        refine Or.inr (Or.inr ⟨j, rfl, ?_⟩)
        cases hX : isNonemptyList j with
        | false => rfl
        | true =>
          obtain ⟨item, rest, rfl⟩ : ∃ item rest, j = .jarr (item :: rest) := by
            cases j with
            | jarr xs =>
              cases xs with
              | nil => simp [isNonemptyList] at hX
              | cons a l => exact ⟨a, l, rfl⟩
            | jnull => simp [isNonemptyList] at hX
            | jbool b => simp [isNonemptyList] at hX
            | jnum n => simp [isNonemptyList] at hX
            | jstr s => simp [isNonemptyList] at hX
            | jobj fs => simp [isNonemptyList] at hX
          exact absurd hd (fetch_no502_of_nonempty resp hs item rest hj d)
    · exact Or.inl hs
  · intro h
    by_cases hs : resp.status = 200
    · rcases h with h | h | ⟨j, hj, hflat⟩
      · exact absurd hs h
      · exact ⟨_, fetch_json_none resp hs h⟩
      · exact ⟨_, fetch_flat resp j hs hj hflat⟩
    · exact ⟨_, fetch_status_ne resp hs⟩

lemma missOutcome_error_iff (env : Env) (date : String) (dt : PyDate) (e : PyError) :
    (missOutcome env date dt).result = .error e ↔
      fetch_zenquotes (env.provider (decide (dt = env.nowDate))) = .error e := by
  cases hf : fetch_zenquotes (env.provider (decide (dt = env.nowDate))) with
  | error e2 => rw [missOutcome_result_error env date dt e2 hf]; simp
  | ok q => rw [missOutcome_result_ok env date dt q hf]; simp

/-- Claim C6: on a cache miss, `get_quote` fails with the 502 gateway error
exactly when the provider response has a non-200 status, an unparsable body,
or a payload that is not a non-empty JSON array; and whenever it so fails, no
record is returned. -/
theorem C6_upstream_error_iff (env : Env) (date : String) (dt : PyDate)
    (hparse : fromisoformat date = some dt)
    (hmiss : cacheHit? env date = none) :
    ((∃ d, (get_quote env date).result = .error (.httpException 502 d)) ↔
      ((env.provider (decide (dt = env.nowDate))).status ≠ 200 ∨
       (env.provider (decide (dt = env.nowDate))).json = none ∨
       ∃ j, (env.provider (decide (dt = env.nowDate))).json = some j ∧
         isNonemptyList j = false)) ∧
    ((∃ d, (get_quote env date).result = .error (.httpException 502 d)) →
      ∀ p, (get_quote env date).result ≠ .ok p) := by
  rw [get_quote_parse_some env date dt hparse, resolveValid_miss env date dt hmiss]
  constructor
  · rw [← fetch_502_iff]
    exact exists_congr fun d => missOutcome_error_iff env date dt _
  · rintro ⟨d, hd⟩ p hp
    rw [hd] at hp
    exact Except.noConfusion hp

/-- Witness for C6: a provider stub answering HTTP 500 makes `get_quote` fail
with a 502 error. -/
theorem C6_witness :
    ∃ d, (get_quote envC6 "2024-01-01").result = .error (.httpException 502 d) :=
  ((C6_upstream_error_iff envC6 "2024-01-01" ⟨2024, 1, 1⟩ (by decide) (by decide)).1).2
    (Or.inl (by decide))


lemma rkey_injective (d1 d2 : String) (h : rkey d1 = rkey d2) : d1 = d2 := by
  have hd : ("quote:" ++ d1).data = ("quote:" ++ d2).data := congrArg String.data h
  rw [String.data_append, String.data_append] at hd
  exact String.ext (List.append_cancel_left hd)

lemma trace_get_keys (env : Env) (date : String) :
    ∀ k ∈ (get_quote env date).trace.cacheGets, k = rkey date := by
  cases hp : fromisoformat date with
  | none => rw [get_quote_parse_none env date hp]; intro k hk; simp at hk
  | some dt =>
    rw [get_quote_parse_some env date dt hp]
    cases hh : cacheHit? env date with
    | some p => rw [resolveValid_hit env date dt p hh]; intro k hk; simpa using hk
    | none =>
      rw [resolveValid_miss env date dt hh]
      cases hf : fetch_zenquotes (env.provider (decide (dt = env.nowDate))) with
      | error e => simp [missOutcome, hf]
      | ok q => cases hsf : env.setFails <;> simp [missOutcome, hf, hsf]

lemma trace_set_keys (env : Env) (date : String) :
    ∀ e ∈ (get_quote env date).trace.cacheSets, e.1 = rkey date := by
  cases hp : fromisoformat date with
  | none => rw [get_quote_parse_none env date hp]; intro e he; simp at he
  | some dt =>
    rw [get_quote_parse_some env date dt hp]
    cases hh : cacheHit? env date with
    | some p => rw [resolveValid_hit env date dt p hh]; intro e he; simp at he
    | none =>
      rw [resolveValid_miss env date dt hh]
      cases hf : fetch_zenquotes (env.provider (decide (dt = env.nowDate))) with
      | error e2 => simp [missOutcome, hf]
      | ok q => cases hsf : env.setFails <;> simp [missOutcome, hf, hsf]

/-- Claim C7: the storage key for both the cache read and the cache write is
the fixed prefix `"quote:"` concatenated with the literal date string, and
textually distinct date strings give distinct keys. -/
theorem C7_key_derivation (env : Env) (date d1 d2 : String) (hne : d1 ≠ d2) :
    rkey date = "quote:" ++ date ∧
    (∀ k ∈ (get_quote env date).trace.cacheGets, k = rkey date) ∧
    (∀ e ∈ (get_quote env date).trace.cacheSets, e.1 = rkey date) ∧
    rkey d1 ≠ rkey d2 :=
  ⟨rfl, trace_get_keys env date, trace_set_keys env date,
   fun h => hne (rkey_injective d1 d2 h)⟩

/-- Witness for C7: distinct date strings yield distinct storage keys, and a
concrete request reads exactly its own key. -/
theorem C7_witness :
    rkey "2024-01-01" ≠ rkey "2024-1-1" ∧
    (∀ k ∈ (get_quote envC7 "2024-01-01").trace.cacheGets, k = rkey "2024-01-01") :=
  ⟨(C7_key_derivation envC7 "x" "2024-01-01" "2024-1-1" (by decide)).2.2.2,
   (C7_key_derivation envC7 "2024-01-01" "a" "b" (by decide)).2.1⟩

/-- Claim C8: with the cache pre-populated under the request's key with
non-empty `text` and `author`, `get_quote` is idempotent on the hit path: it
leaves the cache unchanged, never calls the provider, and a second identical
request returns the identical record. -/
theorem C8_hit_idempotent (env : Env) (date : String) (dt : PyDate)
    (hparse : fromisoformat date = some dt) (hgf : env.getFails = false)
    (ht : strOptTruthy (hget (env.cache (rkey date)) "text") = true)
    (ha : strOptTruthy (hget (env.cache (rkey date)) "author") = true) :
    (get_quote env date).cache' = env.cache ∧
    (get_quote env date).trace.providerCalls = [] ∧
    (get_quote env date).trace.cacheSets = [] ∧
    (get_quote { env with cache := (get_quote env date).cache' } date).result =
      (get_quote env date).result := by
  have hout : get_quote env date =
      { result := .ok
          { date := date,
            text := (hget (env.cache (rkey date)) "text").getD "",
            author := (hget (env.cache (rkey date)) "author").getD "",
            source := (hget (env.cache (rkey date)) "source").getD "zenquotes",
            stored_at := hget (env.cache (rkey date)) "stored_at" },
        trace := { cacheGets := [rkey date] }, cache' := env.cache } := by
    rw [get_quote_parse_some env date dt hparse,
      resolveValid_hit env date dt _ (cacheHit_some env date hgf ht ha)]
  have h0 : (get_quote env date).cache' = env.cache := by rw [hout]
  refine ⟨h0, by rw [hout], by rw [hout], ?_⟩
  rw [h0]

/-- Witness for C8 at the cache state named by the spec: the provider is never
called and the cache is unchanged. -/
theorem C8_witness :
    (get_quote envC8 "2024-01-01").cache' = envC8.cache ∧
    (get_quote envC8 "2024-01-01").trace.providerCalls = [] ∧
    (get_quote envC8 "2024-01-01").trace.cacheSets = [] ∧
    (get_quote { envC8 with cache := (get_quote envC8 "2024-01-01").cache' } "2024-01-01").result =
      (get_quote envC8 "2024-01-01").result :=
  C8_hit_idempotent envC8 "2024-01-01" ⟨2024, 1, 1⟩ (by decide) rfl (by decide) (by decide)

/-- Claim C9: the health probe answers 200 with `ok = true` exactly when the
probe write and read both succeed (the read then observes the written field),
and answers 500 with the error message whenever the write or the read raises. -/
theorem C9_health (env : HealthEnv) :
    (health env = .ok true ↔ (env.setFails = none ∧ env.getFails = none)) ∧
    (∀ msg, env.setFails = some msg → health env = .err msg) ∧
    (∀ msg, env.setFails = none → env.getFails = some msg → health env = .err msg) := by
  refine ⟨?_, ?_, ?_⟩
  · cases hs : env.setFails with
    | some m => simp [health, hs]
    | none =>
      cases hg : env.getFails with
      | some m => simp [health, hs, hg]
      | none =>
        have hhealth : health env = .ok true := by
          unfold health
          rw [hs, hg]
          rfl
        simp [hhealth]
  · intro msg h; simp [health, h]
  · intro msg h1 h2; simp [health, h1, h2]

/-- Witness for C9: a healthy cache gives 200 `ok = true`; a raising probe
write gives the 500 body with the error message. -/
theorem C9_witness :
    health envC9 = .ok true ∧ health envC9b = .err "connection refused" :=
  ⟨((C9_health envC9).1).2 ⟨rfl, rfl⟩, (C9_health envC9b).2.1 "connection refused" rfl⟩

lemma cacheHit_date (env : Env) (date : String) (p : Payload)
    (h : cacheHit? env date = some p) : p.date = date := by
  by_cases hgf : env.getFails = true
  · simp [cacheHit?, hgf] at h
  · by_cases ht : strOptTruthy (hget (env.cache (rkey date)) "text") = true
    · by_cases ha : strOptTruthy (hget (env.cache (rkey date)) "author") = true
      · have h2 := cacheHit_some env date (by simpa using hgf) ht ha
        rw [h] at h2
        injection h2 with h2
        rw [h2]
      · rw [cacheHit_none_invalid env date (Or.inr (by simpa using ha))] at h
        exact absurd h (by simp)
    · rw [cacheHit_none_invalid env date (Or.inl (by simpa using ht))] at h
      exact absurd h (by simp)

/-- Claim C10: every cache write performed by `get_quote` stores exactly the
four fields `text`, `author`, `source`, `stored_at` (never `date`), and the
`date` of any returned record is the caller's literal request string, on the
hit path and on the miss path alike. -/
theorem C10_write_fields (env : Env) (date : String) :
    (∀ e ∈ (get_quote env date).trace.cacheSets,
      e.2.map Prod.fst = ["text", "author", "source", "stored_at"]) ∧
    (∀ p, (get_quote env date).result = .ok p → p.date = date) := by
  cases hp : fromisoformat date with
  | none =>
    rw [get_quote_parse_none env date hp]
    constructor
    · intro e he; simp at he
    · intro p hp2; exact absurd hp2 (by simp)
  | some dt =>
    rw [get_quote_parse_some env date dt hp]
    cases hh : cacheHit? env date with
    | some p0 =>
      rw [resolveValid_hit env date dt p0 hh]
      constructor
      · intro e he; simp at he
      · intro p hp2
        simp only [Except.ok.injEq] at hp2
        rw [← hp2]
        exact cacheHit_date env date p0 hh
    | none =>
      rw [resolveValid_miss env date dt hh]
      cases hf : fetch_zenquotes (env.provider (decide (dt = env.nowDate))) with
      | error e2 =>
        constructor
        · intro e he
          simp [missOutcome, hf] at he
        · intro p hp2
          rw [missOutcome_result_error env date dt e2 hf] at hp2
          exact absurd hp2 (by simp)
      | ok q =>
        constructor
        · intro e he
          cases hsf : env.setFails with
          | true =>
            simp [missOutcome, hf, hsf] at he
            rw [he]
            rfl
          | false =>
            simp [missOutcome, hf, hsf] at he
            rw [he]
            rfl
        · intro p hp2
          rw [missOutcome_result_ok env date dt q hf] at hp2
          simp only [Except.ok.injEq] at hp2
          rw [← hp2]

/-- Witness for C10: the concrete miss-path write carries exactly the four
fields, and the returned record echoes the request string. -/
theorem C10_witness :
    ([("text", "Carpe diem"), ("author", "Horace"), ("source", "zenquotes"),
       ("stored_at", "2024-05-05T12:00:00+00:00")] : Hash).map Prod.fst =
      ["text", "author", "source", "stored_at"] ∧
    ({ date := "2024-01-02", text := "Carpe diem", author := "Horace",
       source := "zenquotes", stored_at := some "2024-05-05T12:00:00+00:00" } : Payload).date =
      "2024-01-02" :=
  ⟨(C10_write_fields envC10 "2024-01-02").1
      ("quote:2024-01-02",
        [("text", "Carpe diem"), ("author", "Horace"), ("source", "zenquotes"),
         ("stored_at", "2024-05-05T12:00:00+00:00")]) (by decide),
   (C10_write_fields envC10 "2024-01-02").2
      { date := "2024-01-02", text := "Carpe diem", author := "Horace",
        source := "zenquotes", stored_at := some "2024-05-05T12:00:00+00:00" } (by decide)⟩

end QOTD
